import Mathlib

/-!
Shallow embedding of `spot_driver/launch/spot_driver.launch.py` (the launch
topology compiler of the spot_ros2 repository) and verification of its
specified properties.

The launch file turns a small scalar configuration (arm presence, depth
registration mode, point-cloud request, naming) into a list of composable
node descriptors with deterministic topic remappings, plus driver node
parameters and a tf-prefix value.  All of that logic is pure string and
list manipulation, embedded below definition by definition.
-/

namespace SpotLaunch

/-- ASCII model of the lower-casing performed by Python `str.lower()`
(all inputs of interest are ASCII).  Structural over the character list so
that the kernel can evaluate it. -/
def pyLower (s : String) : String := String.mk (s.data.map Char.toLower)

/-- Whether a string begins with the path separator `/` (the
`b.startswith(sep)` test of `posixpath.join`). -/
def startsWithSlash (s : String) : Bool := s.data.head? = some '/'

/-- Whether a string ends with the path separator `/` (the
`path.endswith(sep)` test of `posixpath.join`). -/
def endsWithSlash (s : String) : Bool := s.data.getLast? = some '/'

/-- One step of the `posixpath.join` accumulation: an absolute segment
restarts the path; after an empty or separator-terminated path the segment
is appended directly; otherwise a `/` is inserted first. -/
def osJoinStep (path b : String) : String :=
  if startsWithSlash b then b
  else if path = "" ∨ endsWithSlash path then path ++ b
  else path ++ "/" ++ b

/-- Model of `PathJoinSubstitution([...]).perform(context)`, which calls
`os.path.join` (posixpath) on the performed segments: fold `osJoinStep`
over the tail starting from the first segment. -/
def pathJoin : List String → String
  | [] => ""
  | s :: rest => rest.foldl osJoinStep s

/-- `class DepthRegisteredMode(Enum)` from the launch file. -/
inductive DepthRegisteredMode where
  | DISABLE
  | FROM_SPOT
  | FROM_NODELETS
deriving DecidableEq, Repr

/-- `launch_ros.descriptions.ComposableNode` restricted to the fields the
launch file sets: package, plugin, name, namespace (`nspace` here, since
`namespace` is a Lean keyword) and the remapping list of
(internal name, external topic) pairs. -/
structure ComposableNode where
  package : String
  plugin : String
  name : String
  nspace : String
  remappings : List (String × String)
deriving DecidableEq, Repr

/-- `get_camera_sources` (launch file lines 32-36): the fixed base list of
five cameras, with `"hand"` appended when the raw `has_arm` string equals
the literal `"true"` or the literal `"True"`. -/
def get_camera_sources (has_arm : String) : List String :=
  let camera_sources := ["frontleft", "frontright", "left", "right", "back"]
  if has_arm = "true" ∨ has_arm = "True" then camera_sources ++ ["hand"]
  else camera_sources

/-- The descriptor built for one camera inside
`create_depth_registration_nodelets` (lines 50-73). -/
def registerNodeFor (spot_name camera : String) : ComposableNode :=
  { package := "depth_image_proc"
    plugin := "depth_image_proc::RegisterNode"
    name := "register_node_" ++ camera
    nspace := spot_name
    remappings :=
      [("depth/image_rect", pathJoin ["depth", camera, "image"]),
       ("depth/camera_info", pathJoin ["depth", camera, "camera_info"]),
       ("rgb/camera_info", pathJoin ["camera", camera, "camera_info"]),
       ("depth_registered/image_rect", pathJoin ["depth_registered", camera, "image"]),
       ("depth_registered/camera_info", pathJoin ["depth_registered", camera, "camera_info"])] }

/-- `create_depth_registration_nodelets` (lines 39-74): one
`RegisterNode` descriptor per enumerated camera. -/
def create_depth_registration_nodelets (spot_name has_arm : String) : List ComposableNode :=
  (get_camera_sources has_arm).map (registerNodeFor spot_name)

/-- The descriptor built for one camera inside
`create_point_cloud_nodelets` (lines 88-107). -/
def pointCloudNodeFor (spot_name camera : String) : ComposableNode :=
  { package := "depth_image_proc"
    plugin := "depth_image_proc::PointCloudXyzrgbNode"
    name := "point_cloud_xyzrgb_node_" ++ camera
    nspace := spot_name
    remappings :=
      [("rgb/camera_info", pathJoin ["camera", camera, "camera_info"]),
       ("rgb/image_rect_color", pathJoin ["camera", camera, "image"]),
       ("depth_registered/image_rect", pathJoin ["depth_registered", camera, "image"]),
       ("points", pathJoin ["depth_registered", camera, "points"])] }

/-- `create_point_cloud_nodelets` (lines 77-108): one
`PointCloudXyzrgbNode` descriptor per enumerated camera. -/
def create_point_cloud_nodelets (spot_name has_arm : String) : List ComposableNode :=
  (get_camera_sources has_arm).map (pointCloudNodeFor spot_name)

/-- Mode resolution from `launch_setup` (lines 123-131): lower-case the raw
string, then the if/elif chain with final `else` arm mapping everything
unrecognized to `DISABLE`. -/
def resolve_depth_registered_mode (raw : String) : DepthRegisteredMode :=
  let depth_registered_mode_string := pyLower raw
  if depth_registered_mode_string = "from_spot" then DepthRegisteredMode.FROM_SPOT
  else if depth_registered_mode_string = "from_nodelets" then DepthRegisteredMode.FROM_NODELETS
  else if depth_registered_mode_string = "disable" then DepthRegisteredMode.DISABLE
  else DepthRegisteredMode.DISABLE

/-- Line 133: `publish_point_clouds = True if ....lower() == "true" else False`. -/
def parse_point_cloud_request (raw : String) : Bool :=
  if pyLower raw = "true" then true else false

/-- Lines 133-135: the raw request, overridden to `False` when the resolved
mode is `DISABLE`. -/
def resolve_publish_point_clouds (raw : String) (mode : DepthRegisteredMode) : Bool :=
  let publish_point_clouds := parse_point_cloud_request raw
  if mode = DepthRegisteredMode.DISABLE then false else publish_point_clouds

/-- One entry of the `parameters` list handed to the spot driver node.
The Python list holds the config-file path and two single-key dicts; each
possible entry is one constructor. -/
inductive DriverParam where
  | configFile (path : String)
  | spotName (s : String)
  | publishDepthRegistered (b : Bool)
deriving DecidableEq, Repr

/-- Lines 137-140: `spot_driver_params = [config_file, {"spot_name": spot_name}]`
followed by `append({"publish_depth_registered": False})` unless the mode is
`FROM_SPOT`. -/
def spot_driver_params (config_file spot_name : String) (mode : DepthRegisteredMode) :
    List DriverParam :=
  [DriverParam.configFile config_file, DriverParam.spotName spot_name] ++
    (if mode ≠ DepthRegisteredMode.FROM_SPOT then [DriverParam.publishDepthRegistered false]
     else [])

/-- Lines 152-153: `if not tf_prefix and spot_name: tf_prefix =
PathJoinSubstitution([spot_name, ""])` (empty strings are falsy in Python). -/
def resolved_tf_prefix_value (tf_prefix_arg spot_name : String) : String :=
  if tf_prefix_arg = "" ∧ spot_name ≠ "" then pathJoin [spot_name, ""]
  else tf_prefix_arg

/-- The raw scalar configuration consumed by `launch_setup` (all launch
arguments are strings). -/
structure PipelineConfig where
  config_file : String
  has_arm : String
  tf_prefix_arg : String
  spot_name : String
  depth_registered_mode : String
  publish_point_clouds : String
deriving DecidableEq, Repr

/-- The mode `launch_setup` resolves for a configuration. -/
def launch_setup_mode (cfg : PipelineConfig) : DepthRegisteredMode :=
  resolve_depth_registered_mode cfg.depth_registered_mode

/-- The point-cloud policy `launch_setup` resolves for a configuration. -/
def launch_setup_point_clouds (cfg : PipelineConfig) : Bool :=
  resolve_publish_point_clouds cfg.publish_point_clouds (launch_setup_mode cfg)

/-- The driver node parameter list `launch_setup` builds for a configuration. -/
def launch_setup_driver_params (cfg : PipelineConfig) : List DriverParam :=
  spot_driver_params cfg.config_file cfg.spot_name (launch_setup_mode cfg)

/-- The tf prefix value `launch_setup` resolves for a configuration. -/
def launch_setup_tf_value (cfg : PipelineConfig) : String :=
  resolved_tf_prefix_value cfg.tf_prefix_arg cfg.spot_name

/-- Lines 193-197: the composable node description list of the container,
registration nodelets (iff the mode is `FROM_NODELETS`) concatenated with
point-cloud nodelets (iff the resolved policy is true). -/
def launch_setup_components (cfg : PipelineConfig) : List ComposableNode :=
  (if launch_setup_mode cfg = DepthRegisteredMode.FROM_NODELETS
   then create_depth_registration_nodelets cfg.spot_name cfg.has_arm
   else []) ++
  (if launch_setup_point_clouds cfg
   then create_point_cloud_nodelets cfg.spot_name cfg.has_arm
   else [])

/-! ### Helper lemmas shared between the claim theorems -/

/-- The enumerated camera list is one of two fixed lists. -/
theorem get_camera_sources_eq_or (s : String) :
    get_camera_sources s = ["frontleft", "frontright", "left", "right", "back", "hand"] ∨
    get_camera_sources s = ["frontleft", "frontright", "left", "right", "back"] := by
  unfold get_camera_sources
  split
  · exact Or.inl rfl
  · exact Or.inr rfl

/-- Every registration descriptor carries the RegisterNode plugin. -/
theorem plugin_of_mem_reg {s a : String} {n : ComposableNode}
    (h : n ∈ create_depth_registration_nodelets s a) :
    n.plugin = "depth_image_proc::RegisterNode" := by
  simp only [create_depth_registration_nodelets, List.mem_map] at h
  obtain ⟨c, _, rfl⟩ := h
  rfl

/-- Every point-cloud descriptor carries the PointCloudXyzrgbNode plugin. -/
theorem plugin_of_mem_pcl {s a : String} {n : ComposableNode}
    (h : n ∈ create_point_cloud_nodelets s a) :
    n.plugin = "depth_image_proc::PointCloudXyzrgbNode" := by
  simp only [create_point_cloud_nodelets, List.mem_map] at h
  obtain ⟨c, _, rfl⟩ := h
  rfl

/-- Every registration descriptor is namespaced by spot_name. -/
theorem nspace_of_mem_reg {s a : String} {n : ComposableNode}
    (h : n ∈ create_depth_registration_nodelets s a) : n.nspace = s := by
  simp only [create_depth_registration_nodelets, List.mem_map] at h
  obtain ⟨c, _, rfl⟩ := h
  rfl

/-- Every point-cloud descriptor is namespaced by spot_name. -/
theorem nspace_of_mem_pcl {s a : String} {n : ComposableNode}
    (h : n ∈ create_point_cloud_nodelets s a) : n.nspace = s := by
  simp only [create_point_cloud_nodelets, List.mem_map] at h
  obtain ⟨c, _, rfl⟩ := h
  rfl

/-- Filtering the registration list for the RegisterNode plugin keeps it. -/
theorem filter_reg_keeps_reg (s a : String) :
    (create_depth_registration_nodelets s a).filter
      (fun n => n.plugin == "depth_image_proc::RegisterNode")
      = create_depth_registration_nodelets s a := by
  rw [List.filter_eq_self]
  intro n hn
  simp [plugin_of_mem_reg hn]

/-- Filtering the point-cloud list for the RegisterNode plugin empties it. -/
theorem filter_reg_drops_pcl (s a : String) :
    (create_point_cloud_nodelets s a).filter
      (fun n => n.plugin == "depth_image_proc::RegisterNode") = [] := by
  rw [List.filter_eq_nil_iff]
  intro n hn
  simp [plugin_of_mem_pcl hn]

/-- Filtering the point-cloud list for the PointCloudXyzrgbNode plugin keeps it. -/
theorem filter_pcl_keeps_pcl (s a : String) :
    (create_point_cloud_nodelets s a).filter
      (fun n => n.plugin == "depth_image_proc::PointCloudXyzrgbNode")
      = create_point_cloud_nodelets s a := by
  rw [List.filter_eq_self]
  intro n hn
  simp [plugin_of_mem_pcl hn]

/-- Filtering the registration list for the PointCloudXyzrgbNode plugin empties it. -/
theorem filter_pcl_drops_reg (s a : String) :
    (create_depth_registration_nodelets s a).filter
      (fun n => n.plugin == "depth_image_proc::PointCloudXyzrgbNode") = [] := by
  rw [List.filter_eq_nil_iff]
  intro n hn
  simp [plugin_of_mem_reg hn]

/-! ### Theorems about the claims -/

/-- C2: mode resolution is a total function with a fail-open default: the
input is lower-cased and matched, yielding FROM_SPOT (FromDriver) for
"from_spot", FROM_NODELETS (FromComponents) for "from_nodelets", DISABLE
(Disabled) for "disable", and DISABLE for every other lower-cased value;
no input fails. -/
theorem resolve_mode_total_fail_open (s : String) :
    (pyLower s = "from_spot" →
      resolve_depth_registered_mode s = DepthRegisteredMode.FROM_SPOT) ∧
    (pyLower s = "from_nodelets" →
      resolve_depth_registered_mode s = DepthRegisteredMode.FROM_NODELETS) ∧
    (pyLower s = "disable" →
      resolve_depth_registered_mode s = DepthRegisteredMode.DISABLE) ∧
    (pyLower s ≠ "from_spot" → pyLower s ≠ "from_nodelets" →
      resolve_depth_registered_mode s = DepthRegisteredMode.DISABLE) := by
  refine ⟨fun h => ?_, fun h => ?_, fun h => ?_, fun h h' => ?_⟩ <;>
    simp [resolve_depth_registered_mode, h]
  · simp [h']

/-- C2 witness: concrete evaluations, including mixed casing and the
fail-open default on unrecognized and empty input. -/
theorem resolve_mode_total_fail_open_witness :
    resolve_depth_registered_mode "From_Nodelets" = DepthRegisteredMode.FROM_NODELETS ∧
    resolve_depth_registered_mode "DISABLE" = DepthRegisteredMode.DISABLE ∧
    resolve_depth_registered_mode "unexpected" = DepthRegisteredMode.DISABLE ∧
    resolve_depth_registered_mode "" = DepthRegisteredMode.DISABLE :=
  ⟨(resolve_mode_total_fail_open "From_Nodelets").2.1 (by decide),
   (resolve_mode_total_fail_open "DISABLE").2.2.1 (by decide),
   (resolve_mode_total_fail_open "unexpected").2.2.2 (by decide) (by decide),
   (resolve_mode_total_fail_open "").2.2.2 (by decide) (by decide)⟩

/-- C4: camera enumeration is pure and total: without an arm it is exactly
the five base cameras in fixed order, with an arm the same five plus "hand"
appended; nothing else ever occurs. -/
theorem camera_sources_exact (s : String) :
    get_camera_sources s =
      if s = "true" ∨ s = "True"
      then ["frontleft", "frontright", "left", "right", "back", "hand"]
      else ["frontleft", "frontright", "left", "right", "back"] := by
  unfold get_camera_sources
  split <;> rfl

/-- C8 counterexample: at tf_prefix "" and spot_name "spot1/" the program
(os.path.join of spot_name and "") leaves the trailing separator alone and
resolves "spot1/", not spot_name followed by an additional "/". -/
theorem tf_prefix_trailing_slash_counterexample :
    ¬ (resolved_tf_prefix_value "" "spot1/" = "spot1/" ++ "/") := by decide

/-- C8 (amended): when the given prefix value is empty and spot_name is
non-empty, the resolved value is os.path.join(spot_name, ""): spot_name
unchanged when it already ends with "/", and spot_name followed by "/"
otherwise; in every other case the given value is returned unchanged. -/
theorem tf_prefix_default_amended (cfg : PipelineConfig) :
    launch_setup_tf_value cfg =
      (if cfg.tf_prefix_arg = "" ∧ cfg.spot_name ≠ "" then
        (if endsWithSlash cfg.spot_name then cfg.spot_name
         else cfg.spot_name ++ "/")
       else cfg.tf_prefix_arg) ∧
    resolved_tf_prefix_value "" "spot1" = "spot1/" ∧
    resolved_tf_prefix_value "" "spot1/" = "spot1/" ∧
    resolved_tf_prefix_value "custom" "spot1" = "custom" ∧
    resolved_tf_prefix_value "custom" "" = "custom" ∧
    resolved_tf_prefix_value "" "" = "" := by
  refine ⟨?_, by decide, by decide, by decide, by decide, by decide⟩
  unfold launch_setup_tf_value resolved_tf_prefix_value pathJoin
  split <;> rename_i h
  · obtain ⟨h1, h2⟩ := h
    simp only [List.foldl, osJoinStep, startsWithSlash]
    by_cases h3 : endsWithSlash cfg.spot_name = true <;> simp [h2, h3]
  · rfl

/-- C1: the resolved point-cloud policy is true exactly when the raw
request lower-cases to "true" and the mode is not DISABLE; when the mode is
DISABLE the policy is false regardless of the request, and the assembled
topology then contains no PointCloudXyzrgb descriptors at all. -/
theorem point_cloud_policy_and_disabled_topology (raw : String)
    (mode : DepthRegisteredMode) (cfg : PipelineConfig) :
    (resolve_publish_point_clouds raw mode = true ↔
      (pyLower raw = "true" ∧ mode ≠ DepthRegisteredMode.DISABLE)) ∧
    (mode = DepthRegisteredMode.DISABLE →
      resolve_publish_point_clouds raw mode = false) ∧
    (launch_setup_mode cfg = DepthRegisteredMode.DISABLE →
      (launch_setup_components cfg).filter
          (fun n => n.plugin == "depth_image_proc::PointCloudXyzrgbNode") = []) := by
  refine ⟨?_, fun h => ?_, fun h => ?_⟩
  · cases mode <;> simp [resolve_publish_point_clouds, parse_point_cloud_request]
  · simp [resolve_publish_point_clouds, h]
  · simp [launch_setup_components, h, launch_setup_point_clouds,
      resolve_publish_point_clouds]

/-- C1 witness: with the mode string "disable" and the request "true", the
policy is false and the assembled component list has no point-cloud
descriptor. -/
theorem point_cloud_policy_and_disabled_topology_witness :
    resolve_publish_point_clouds "true" DepthRegisteredMode.DISABLE = false ∧
    (launch_setup_components
        ⟨"config.yaml", "true", "", "spot", "disable", "true"⟩).filter
        (fun n => n.plugin == "depth_image_proc::PointCloudXyzrgbNode") = [] :=
  ⟨(point_cloud_policy_and_disabled_topology "true" DepthRegisteredMode.DISABLE
      ⟨"config.yaml", "true", "", "spot", "disable", "true"⟩).2.1 rfl,
   (point_cloud_policy_and_disabled_topology "true" DepthRegisteredMode.DISABLE
      ⟨"config.yaml", "true", "", "spot", "disable", "true"⟩).2.2 (by decide)⟩

/-- C9: the two boolean coercions are asymmetric: "hand" is enumerated
(has_arm treated as true) exactly for the literal strings "true" and
"True", while the raw point-cloud request is treated as true exactly when
lower-casing yields "true"; other strings, including "1" and "false",
count as false in both. -/
theorem boolean_coercion_asymmetry (s : String) :
    (("hand" ∈ get_camera_sources s) ↔ (s = "true" ∨ s = "True")) ∧
    (parse_point_cloud_request s = true ↔ pyLower s = "true") ∧
    get_camera_sources "TRUE" = ["frontleft", "frontright", "left", "right", "back"] ∧
    get_camera_sources "tRue" = ["frontleft", "frontright", "left", "right", "back"] ∧
    parse_point_cloud_request "TRUE" = true ∧
    parse_point_cloud_request "tRue" = true ∧
    get_camera_sources "1" = ["frontleft", "frontright", "left", "right", "back"] ∧
    get_camera_sources "false" = ["frontleft", "frontright", "left", "right", "back"] ∧
    parse_point_cloud_request "1" = false ∧
    parse_point_cloud_request "false" = false := by
  refine ⟨?_, ?_, by decide, by decide, by decide, by decide, by decide,
    by decide, by decide, by decide⟩
  · unfold get_camera_sources
    split <;> rename_i h <;> simp [h]
  · simp [parse_point_cloud_request]

/-- C3 counterexample: with mode "from_spot" (FromDriver) the driver
parameter list is NOT the base parameters plus an entry
publish_depth_registered with value true: the code appends no such entry
at all in that case. -/
theorem driver_params_from_spot_counterexample :
    ¬ (launch_setup_driver_params
        ⟨"config.yaml", "false", "", "spot", "from_spot", "false"⟩ =
      [DriverParam.configFile "config.yaml", DriverParam.spotName "spot",
       DriverParam.publishDepthRegistered true]) := by decide

/-- C3 (amended): the driver parameter list is the base configuration
parameters plus an entry publish_depth_registered:=false appended exactly
when the mode is not FROM_SPOT (FromDriver); when the mode is FROM_SPOT no
publish_depth_registered entry is appended at all (rather than one with
value true). -/
theorem driver_params_amended (cfg : PipelineConfig) :
    launch_setup_driver_params cfg =
      [DriverParam.configFile cfg.config_file, DriverParam.spotName cfg.spot_name] ++
        (if launch_setup_mode cfg = DepthRegisteredMode.FROM_SPOT then []
         else [DriverParam.publishDepthRegistered false]) ∧
    (launch_setup_mode cfg = DepthRegisteredMode.FROM_SPOT →
      (launch_setup_driver_params cfg).filter
          (fun p => match p with
            | DriverParam.publishDepthRegistered _ => true
            | _ => false) = []) := by
  constructor
  · unfold launch_setup_driver_params spot_driver_params
    split <;> rename_i h <;> simp [h]
  · intro h
    simp [launch_setup_driver_params, spot_driver_params, h]

/-- C3 witness: at a concrete FromDriver configuration the parameter list
is exactly the two base entries and holds no publish_depth_registered
entry. -/
theorem driver_params_amended_witness :
    launch_setup_driver_params
        ⟨"config.yaml", "false", "", "spot", "from_spot", "false"⟩ =
      [DriverParam.configFile "config.yaml", DriverParam.spotName "spot"] ++ [] ∧
    (launch_setup_driver_params
        ⟨"config.yaml", "false", "", "spot", "from_spot", "false"⟩).filter
        (fun p => match p with
          | DriverParam.publishDepthRegistered _ => true
          | _ => false) = [] := by
  have h := driver_params_amended ⟨"config.yaml", "false", "", "spot", "from_spot", "false"⟩
  exact ⟨by rw [h.1]; decide, h.2 (by decide)⟩

/-- C5: for every camera in the enumerated sequence the registration
builder emits exactly one RegisterNode descriptor named
register_node_<camera> with exactly the five specified remappings, and
those descriptors appear in the assembled output iff the mode is
FROM_NODELETS (FromComponents). -/
theorem depth_registration_descriptors_exact (spot_name has_arm : String)
    (cfg : PipelineConfig) :
    create_depth_registration_nodelets spot_name has_arm
      = (get_camera_sources has_arm).map (fun camera =>
          { package := "depth_image_proc"
            plugin := "depth_image_proc::RegisterNode"
            name := "register_node_" ++ camera
            nspace := spot_name
            remappings :=
              [("depth/image_rect", "depth/" ++ camera ++ "/image"),
               ("depth/camera_info", "depth/" ++ camera ++ "/camera_info"),
               ("rgb/camera_info", "camera/" ++ camera ++ "/camera_info"),
               ("depth_registered/image_rect", "depth_registered/" ++ camera ++ "/image"),
               ("depth_registered/camera_info",
                "depth_registered/" ++ camera ++ "/camera_info")] }) ∧
    ((launch_setup_components cfg).filter
        (fun n => n.plugin == "depth_image_proc::RegisterNode")
      = if launch_setup_mode cfg = DepthRegisteredMode.FROM_NODELETS
        then create_depth_registration_nodelets cfg.spot_name cfg.has_arm
        else []) := by
  constructor
  · apply List.map_congr_left
    intro c hc
    rcases get_camera_sources_eq_or has_arm with h | h <;> rw [h] at hc <;>
      fin_cases hc <;> rfl
  · rw [launch_setup_components, List.filter_append]
    by_cases h1 : launch_setup_mode cfg = DepthRegisteredMode.FROM_NODELETS <;>
      by_cases h2 : launch_setup_point_clouds cfg = true <;>
      simp [h1, h2, filter_reg_keeps_reg, filter_reg_drops_pcl]

/-- C6: for every camera in the enumerated sequence the point-cloud
builder emits exactly one PointCloudXyzrgbNode descriptor named
point_cloud_xyzrgb_node_<camera> with exactly the four specified
remappings, and those descriptors appear in the assembled output iff the
resolved point-cloud policy is true. -/
theorem point_cloud_descriptors_exact (spot_name has_arm : String)
    (cfg : PipelineConfig) :
    create_point_cloud_nodelets spot_name has_arm
      = (get_camera_sources has_arm).map (fun camera =>
          { package := "depth_image_proc"
            plugin := "depth_image_proc::PointCloudXyzrgbNode"
            name := "point_cloud_xyzrgb_node_" ++ camera
            nspace := spot_name
            remappings :=
              [("rgb/camera_info", "camera/" ++ camera ++ "/camera_info"),
               ("rgb/image_rect_color", "camera/" ++ camera ++ "/image"),
               ("depth_registered/image_rect", "depth_registered/" ++ camera ++ "/image"),
               ("points", "depth_registered/" ++ camera ++ "/points")] }) ∧
    ((launch_setup_components cfg).filter
        (fun n => n.plugin == "depth_image_proc::PointCloudXyzrgbNode")
      = if launch_setup_point_clouds cfg = true
        then create_point_cloud_nodelets cfg.spot_name cfg.has_arm
        else []) := by
  constructor
  · apply List.map_congr_left
    intro c hc
    rcases get_camera_sources_eq_or has_arm with h | h <;> rw [h] at hc <;>
      fin_cases hc <;> rfl
  · rw [launch_setup_components, List.filter_append]
    by_cases h1 : launch_setup_mode cfg = DepthRegisteredMode.FROM_NODELETS <;>
      by_cases h2 : launch_setup_point_clouds cfg = true <;>
      simp [h1, h2, filter_pcl_keeps_pcl, filter_pcl_drops_reg]

/-- C7: the assembled descriptor list is the concatenation, registration
descriptors first, of the registration output (present iff the mode is
FROM_NODELETS) and the point-cloud output (present iff the resolved policy
is true); concretely it has 12 descriptors for
mode=from_nodelets, point_clouds=true, has_arm=true, and 5 for
mode=from_spot, point_clouds=true, has_arm=false. -/
theorem topology_concatenation_and_counts (cfg : PipelineConfig) :
    launch_setup_components cfg
      = (if launch_setup_mode cfg = DepthRegisteredMode.FROM_NODELETS
         then create_depth_registration_nodelets cfg.spot_name cfg.has_arm
         else [])
        ++ (if launch_setup_point_clouds cfg = true
            then create_point_cloud_nodelets cfg.spot_name cfg.has_arm
            else []) ∧
    (launch_setup_components
        ⟨"config.yaml", "true", "", "spot", "from_nodelets", "true"⟩).length = 12 ∧
    (launch_setup_components
        ⟨"config.yaml", "false", "", "spot", "from_spot", "true"⟩).length = 5 := by
  exact ⟨rfl, by decide, by decide⟩

/-- C10: in every configuration the assembled descriptors have pairwise
distinct names, every descriptor is namespaced by spot_name, the
registration and point-cloud sublists enumerate the same cameras in the
same order, and the camera sequence itself is duplicate-free. -/
theorem descriptor_names_distinct_and_aligned (cfg : PipelineConfig) :
    ((launch_setup_components cfg).map ComposableNode.name).Nodup ∧
    ((launch_setup_components cfg).all
        (fun n => n.nspace == cfg.spot_name)) = true ∧
    ((create_depth_registration_nodelets cfg.spot_name cfg.has_arm).map
        ComposableNode.name
      = (get_camera_sources cfg.has_arm).map (fun c => "register_node_" ++ c)) ∧
    ((create_point_cloud_nodelets cfg.spot_name cfg.has_arm).map
        ComposableNode.name
      = (get_camera_sources cfg.has_arm).map
          (fun c => "point_cloud_xyzrgb_node_" ++ c)) ∧
    (get_camera_sources cfg.has_arm).Nodup := by
  refine ⟨?_, ?_, ?_, ?_, ?_⟩
  · rcases get_camera_sources_eq_or cfg.has_arm with h | h <;>
      by_cases h1 : launch_setup_mode cfg = DepthRegisteredMode.FROM_NODELETS <;>
      by_cases h2 : launch_setup_point_clouds cfg = true <;>
      simp [launch_setup_components, h, h1, h2, create_depth_registration_nodelets,
        create_point_cloud_nodelets, List.map_map, registerNodeFor,
        pointCloudNodeFor]
  · rw [List.all_eq_true]
    intro n hn
    rw [launch_setup_components, List.mem_append] at hn
    rcases hn with hn | hn
    · split at hn
      · simp [nspace_of_mem_reg hn]
      · simp at hn
    · split at hn
      · simp [nspace_of_mem_pcl hn]
      · simp at hn
  · rw [create_depth_registration_nodelets, List.map_map]
    rfl
  · rw [create_point_cloud_nodelets, List.map_map]
    rfl
  · rcases get_camera_sources_eq_or cfg.has_arm with h | h <;> rw [h] <;> decide

end SpotLaunch
